import Mathlib

/-!
# Verification of the armnn ImageTensorGenerator pipeline

Shallow embedding of `tests/ImageTensorGenerator/ImageTensorGenerator.cpp`
(present in `src/` as the second document of
`src/backends/cl/workloads/ClSoftmaxUint8Workload.hpp`): the
`CommandLineProcessor` validation functions, the string→enum converters and
the `main` orchestrator are translated directly from that source.

The generic helpers it calls (`GetNormalizationParameters`,
`PrepareImageTensor<T>`, `WriteImageTensorImpl`, the resize step of
`InferenceTestImage`) are declared in headers of this repository that are
not part of the provided sources; those are modelled from the spec
(§4.1–§4.4), as marked in their doc comments.

Numeric model: raw pixel samples are `ℕ`, the normalization arithmetic is
exact rational arithmetic (`ℚ`) standing for the source's `float`
computations; rounding to nearest integer is Mathlib's `round`.
-/

namespace ImageTensorGen

/-- `armnn::DataLayout`, restricted to the two members the tool accepts. -/
inductive DataLayout where
  | NHWC
  | NCHW
deriving DecidableEq, Repr

/-- `SupportedFrontend` from ImageTensorGenerator.hpp (the three values
`CommandLineProcessor::GetModelFormat` can produce). -/
inductive SupportedFrontend where
  | Caffe
  | TensorFlow
  | TFLite
deriving DecidableEq, Repr

/-- `armnn::DataType`, restricted to the three members
`CommandLineProcessor::GetOutputType` can produce (the configured
OutputElementType enumeration of the spec). -/
inductive DataType where
  | Float32
  | Signed32
  | QAsymmU8
deriving DecidableEq, Repr

/-- Modelled from the spec (§3): `NormalizationParameters` — per-channel
scale and offset, a channel-ordering swap flag (RGB vs BGR), and the valid
input value range. The concrete record lives in ImageTensorGenerator.hpp,
which is not among the provided sources. -/
structure NormalizationParameters where
  scale : List ℚ
  offset : List ℚ
  swapChannels : Bool
  rangeLo : ℕ
  rangeHi : ℕ
deriving DecidableEq, Repr

/-- Modelled from the spec (§3): a dense pixel buffer with width, height and
channel-count metadata; `pixel h w c` is the raw sample at row `h`,
column `w`, channel `c`. -/
structure PixelBuffer where
  width : ℕ
  height : ℕ
  channels : ℕ
  pixel : ℕ → ℕ → ℕ → ℕ

/-- Modelled from the spec (§4.1): the normalization profile table
`GetNormalizationParameters(frontEnd, elementType)`, a total, side-effect
free lookup of fixed constants over the declared enumerated domain. The
numeric constants are representative (the spec fixes the per-channel
structure, not the values, which live in the excluded header); every entry
carries exactly one scale and one offset per channel, channel count 3. -/
def lookupNormParams : SupportedFrontend → DataType → NormalizationParameters
  | .Caffe, .Float32 =>
      ⟨[1, 1, 1], [(104 : ℚ), 117, 124], true, 0, 255⟩
  | .Caffe, .Signed32 =>
      ⟨[1, 1, 1], [(104 : ℚ), 117, 124], true, 0, 255⟩
  | .Caffe, .QAsymmU8 =>
      ⟨[1, 1, 1], [0, 0, 0], true, 0, 255⟩
  | .TensorFlow, .Float32 =>
      ⟨[2/255, 2/255, 2/255], [(255 : ℚ)/2, 255/2, 255/2], false, 0, 255⟩
  | .TensorFlow, .Signed32 =>
      ⟨[1, 1, 1], [128, 128, 128], false, 0, 255⟩
  | .TensorFlow, .QAsymmU8 =>
      ⟨[1, 1, 1], [0, 0, 0], false, 0, 255⟩
  | .TFLite, .Float32 =>
      ⟨[2/255, 2/255, 2/255], [(255 : ℚ)/2, 255/2, 255/2], false, 0, 255⟩
  | .TFLite, .Signed32 =>
      ⟨[1, 1, 1], [128, 128, 128], false, 0, 255⟩
  | .TFLite, .QAsymmU8 =>
      ⟨[1, 1, 1], [0, 0, 0], false, 0, 255⟩

/-- Modelled from the spec (§4.3): the per-sample transform
`scaled = (raw - offset[c]) * scale[c]`, with the channel index remapped
first when the parameters request a channel-order swap (3 channels, so the
swap is `c ↦ 2 - c`). -/
def scaledValue (img : PixelBuffer) (p : NormalizationParameters)
    (h w c : ℕ) : ℚ :=
  let cIdx := if p.swapChannels then 2 - c else c
  ((img.pixel h w c : ℚ) - p.offset.getD cIdx 0) * p.scale.getD cIdx 0

/-- Modelled from the spec (§4.3): signed-integer output — `scaled` rounded
to nearest integer, no clamping. -/
def roundedValue (img : PixelBuffer) (p : NormalizationParameters)
    (h w c : ℕ) : ℤ :=
  round (scaledValue img p h w c)

/-- Modelled from the spec (§4.3): quantized-unsigned output — `scaled`
rounded to nearest integer and clamped to the unsigned 8-bit representable
range [0, 255]. -/
def quantU8Value (img : PixelBuffer) (p : NormalizationParameters)
    (h w c : ℕ) : ℕ :=
  (min 255 (max 0 (roundedValue img p h w c))).toNat

/-- Modelled from the spec (§4.3, layout transform): flatten the per-sample
values of an `H × W × C` grid into a list in the order the layout
prescribes — NHWC: (row, column, channel), channel varies fastest; NCHW:
(channel, row, column), column varies fastest, channel slowest. -/
def layoutList {α : Type} (layout : DataLayout) (H W C : ℕ)
    (f : ℕ → ℕ → ℕ → α) : List α :=
  match layout with
  | .NHWC =>
      (List.range H).flatMap fun h =>
        (List.range W).flatMap fun w =>
          (List.range C).map fun c => f h w c
  | .NCHW =>
      (List.range C).flatMap fun c =>
        (List.range H).flatMap fun h =>
          (List.range W).map fun w => f h w c

/-- Modelled from the spec (§4.3): `Normalize<float>` — the scaled value
itself, arranged in layout order (exact rationals standing for floats). -/
def normalizeFloat (img : PixelBuffer) (p : NormalizationParameters)
    (layout : DataLayout) : List ℚ :=
  layoutList layout img.height img.width 3 (scaledValue img p)

/-- Modelled from the spec (§4.3): `Normalize<int>` — rounded, unclamped,
arranged in layout order. -/
def normalizeInt (img : PixelBuffer) (p : NormalizationParameters)
    (layout : DataLayout) : List ℤ :=
  layoutList layout img.height img.width 3 (roundedValue img p)

/-- Modelled from the spec (§4.3): `Normalize<uint8_t>` — rounded and
clamped to [0, 255], arranged in layout order. -/
def normalizeU8 (img : PixelBuffer) (p : NormalizationParameters)
    (layout : DataLayout) : List ℕ :=
  layoutList layout img.height img.width 3 (quantU8Value img p)

/-- Modelled from the spec (§4.2): resolving a requested target dimension —
a target of zero means "preserve that source dimension". -/
def resolveDim (target source : ℕ) : ℕ :=
  if target = 0 then source else target

/-- Modelled from the spec (§4.2, §2): `Resize(pixelBuffer, tw, th)`.
Passes the buffer through unchanged when the resolved dimensions equal the
source dimensions; otherwise samples deterministically per channel
(nearest-neighbour stands in for the unspecified interpolation policy).
Channel count is unchanged; the declared output width/height are exactly
the resolved targets. -/
def resize (img : PixelBuffer) (tw th : ℕ) : PixelBuffer :=
  let newW := resolveDim tw img.width
  let newH := resolveDim th img.height
  if newW = img.width ∧ newH = img.height then
    img
  else
    { width := newW
      height := newH
      channels := img.channels
      pixel := fun h w c => img.pixel (h * img.height / newH) (w * img.width / newW) c }

/-- The tagged container `main` stores in `imageDataContainers`:
`boost::variant<std::vector<float>, std::vector<int>, std::vector<uint8_t>>`
(`TContainer` in the source), with rationals standing for floats. -/
inductive TensorData where
  | floats : List ℚ → TensorData
  | ints : List ℤ → TensorData
  | u8s : List ℕ → TensorData
deriving DecidableEq, Repr

/-- The element type a `TContainer` alternative holds. -/
inductive ElemKind where
  | float
  | int
  | u8
deriving DecidableEq, Repr

/-- Which variant alternative a container is. -/
def elemKind : TensorData → ElemKind
  | .floats _ => .float
  | .ints _ => .int
  | .u8s _ => .u8

/-- The element type each configured OutputElementType selects (the spec's
float / int / uint8 correspondence). -/
def expectedElemKind : DataType → ElemKind
  | .Float32 => .float
  | .Signed32 => .int
  | .QAsymmU8 => .u8

/-- The `switch (outputType)` of `main` (lines 300–315): `Signed32` →
`PrepareImageTensor<int>`, `QAsymmU8` → `PrepareImageTensor<uint8_t>`,
`Float32` (the `default` label shares this branch) →
`PrepareImageTensor<float>`. The image is already loaded and resized;
normalization per the spec-modelled `normalize*` above. -/
def prepareDispatch (ty : DataType) (img : PixelBuffer)
    (p : NormalizationParameters) (layout : DataLayout) : TensorData :=
  match ty with
  | .Signed32 => .ints (normalizeInt img p layout)
  | .QAsymmU8 => .u8s (normalizeU8 img p layout)
  | .Float32 => .floats (normalizeFloat img p layout)

/-- `imageDataContainers` after the dispatch: `main` starts from an empty
vector and `push_back`s the single prepared tensor. -/
def mainContainers (ty : DataType) (img : PixelBuffer)
    (p : NormalizationParameters) (layout : DataLayout) : List TensorData :=
  [].concat (prepareDispatch ty img p layout)

/-- Modelled from the spec (§4.4 / §6): the serialized bytes of one signed
32-bit element — its fixed-width 4-byte little-endian two's-complement
representation. -/
def intBytes (i : ℤ) : List ℕ :=
  let m := (i % (2 ^ 32 : ℤ)).toNat
  [m % 256, m / 256 % 256, m / 256 ^ 2 % 256, m / 256 ^ 3 % 256]

/-- Modelled from the spec (§4.4 / §6): the serialized bytes of one float
element. The spec fixes only the width (4 bytes per element, fixed per the
element type); the IEEE-754 bit pattern has no counterpart in the rational
model, so a deterministic 4-byte encoding of the rational stands in. -/
def floatBytes (q : ℚ) : List ℕ :=
  [q.num.natAbs % 256, q.num.natAbs / 256 % 256, q.den % 256, q.den / 256 % 256]

/-- Modelled from the spec (§4.4): `WriteImageTensorImpl` /
`Serialize(tensorBuffer)` — each element's fixed-width binary
representation in array order, no header, no metadata, no padding.
A `uint8_t` element is its own single byte. -/
def tensorBytes : TensorData → List ℕ
  | .floats l => l.flatMap floatBytes
  | .ints l => l.flatMap intBytes
  | .u8s l => l

/-- The observable file-system state `main` interacts with through
`boost::filesystem` and `std::ofstream`: regular files with byte contents,
and directories. -/
structure FileSystem where
  files : List (String × List ℕ)
  dirs : List String
deriving DecidableEq, Repr

/-- Content of the regular file at `p`, if one exists. -/
def fsGetFile (fs : FileSystem) (p : String) : Option (List ℕ) :=
  fs.files.lookup p

/-- Whether a regular file exists at `p`. -/
def fsFileExists (fs : FileSystem) (p : String) : Bool :=
  (fsGetFile fs p).isSome

/-- `boost::filesystem::is_directory`. -/
def fsIsDir (fs : FileSystem) (p : String) : Bool :=
  fs.dirs.contains p

/-- `boost::filesystem::exists`: a file or a directory is present at `p`. -/
def fsExists (fs : FileSystem) (p : String) : Bool :=
  fsFileExists fs p || fsIsDir fs p

/-- Create or overwrite the regular file at `p` with `content`. -/
def fsSetFile (fs : FileSystem) (p : String) (content : List ℕ) : FileSystem :=
  { fs with files := (p, content) :: fs.files.filter (fun e => !(e.1 == p)) }

/-- Split a character list on a separator character (the components of a
slash-separated path). -/
def splitOnChar (sep : Char) : List Char → List (List Char)
  | [] => [[]]
  | ch :: rest =>
    if ch = sep then
      [] :: splitOnChar sep rest
    else
      match splitOnChar sep rest with
      | [] => [[ch]]
      | g :: gs => (ch :: g) :: gs

/-- `boost::filesystem::path::parent_path` for the slash-separated paths
this tool handles: everything before the last `/`, empty when there is no
separator. -/
def parentPath (p : String) : String :=
  String.intercalate "/"
    (((splitOnChar '/' p.data).dropLast).map (fun g => String.mk g))

/-- The layout strings `CommandLineProcessor::ValidateLayout` accepts
(`supportedLayouts` in the source). -/
def supportedLayouts : List String := ["NHWC", "NCHW"]

/-- `CommandLineProcessor::ValidateInputFile` (lines 63–84): reject an
empty name, a non-existent path, a directory; accept otherwise. -/
def validateInputFile (fs : FileSystem) (inputFileName : String) : Bool :=
  if inputFileName.isEmpty then false
  else if !(fsExists fs inputFileName) then false
  else if fsIsDir fs inputFileName then false
  else true

/-- `CommandLineProcessor::ValidateLayout` (lines 86–104): reject an empty
string or anything outside `supportedLayouts`. -/
def validateLayout (layout : String) : Bool :=
  if layout.isEmpty then false
  else if !(supportedLayouts.contains layout) then false
  else true

/-- `CommandLineProcessor::ValidateOutputFile` (lines 106–134): reject an
empty name, an already-existing path, a directory, or a parent directory
that does not exist. -/
def validateOutputFile (fs : FileSystem) (outputFileName : String) : Bool :=
  if outputFileName.isEmpty then false
  else if fsExists fs outputFileName then false
  else if fsIsDir fs outputFileName then false
  else if !(fsExists fs (parentPath outputFileName)) then false
  else true

/-- The option record `CommandLineProcessor` holds after
`boost::program_options` has populated its fields (the parsing itself is
the excluded CLI boundary; `new-width`/`new-height` are carried as the
numbers `stoi` yields). -/
structure Options where
  inputFile : String
  layout : String
  outputFile : String
  newWidth : ℕ
  newHeight : ℕ
  modelFormat : String
  outputType : String
deriving DecidableEq, Repr

/-- `CommandLineProcessor::ProcessCommandLine` after parsing (lines
191–206): the three validations in source order; any failure returns
false. -/
def processCommandLine (opts : Options) (fs : FileSystem) : Bool :=
  if !(validateInputFile fs opts.inputFile) then false
  else if !(validateLayout opts.layout) then false
  else if !(validateOutputFile fs opts.outputFile) then false
  else true

/-- `CommandLineProcessor::GetLayout` (lines 210–224); the final branch
throws `armnn::Exception`, modelled as `Except.error`. -/
def getLayout (layout : String) : Except String DataLayout :=
  if layout = "NHWC" then .ok .NHWC
  else if layout = "NCHW" then .ok .NCHW
  else .error ("Unsupported data layout: " ++ layout)

/-- `CommandLineProcessor::GetModelFormat` (lines 228–246); unknown
strings throw `armnn::Exception`. -/
def getModelFormat (modelFormat : String) : Except String SupportedFrontend :=
  if modelFormat = "caffe" then .ok .Caffe
  else if modelFormat = "tensorflow" then .ok .TensorFlow
  else if modelFormat = "tflite" then .ok .TFLite
  else .error ("Unsupported model format" ++ modelFormat)

/-- `CommandLineProcessor::GetOutputType` (lines 247–265); unknown strings
throw `armnn::Exception`. -/
def getOutputType (outputType : String) : Except String DataType :=
  if outputType = "float" then .ok .Float32
  else if outputType = "int" then .ok .Signed32
  else if outputType = "qasymm8" then .ok .QAsymmU8
  else .error ("Unsupported input type" ++ outputType)

/-- Whether `std::ofstream::open` on `p` succeeds (`is_open`): a directory
cannot be opened as an output stream; otherwise the file is created.
Parent-directory existence was already enforced by `ValidateOutputFile`. -/
def canOpen (fs : FileSystem) (p : String) : Bool :=
  !(fsIsDir fs p)

/-- The process-level outcome of `main`: a return code, or an uncaught
`armnn::Exception` escaping `main` (the getter throws outside a `try`). -/
inductive MainResult where
  | exitCode : Int → MainResult
  | uncaughtException : String → MainResult
deriving DecidableEq, Repr

/-- `main` (lines 279–344), with its external effects made explicit:
`loadResult` is the opaque image-loading collaborator's outcome (its
exception is the `InferenceTestImageException` caught at line 317), and
`failAfter` models the output stream — `some k` means the stream accepts
`k` bytes and then sets its failure flag, `none` means every write
succeeds. Steps in source order: `ProcessCommandLine`, the getters
(`GetModelFormat`, `GetOutputType`, `GetLayout` — each can throw, uncaught),
the normalization lookup, the type dispatch with load/resize/normalize,
then open (creating an empty file), write, and the failure-flag check; on a
write failure the file is closed and `-1` returned with the partial
content left in place. -/
def mainRun (opts : Options) (fs : FileSystem)
    (loadResult : Except String PixelBuffer) (failAfter : Option ℕ) :
    MainResult × FileSystem :=
  if !(processCommandLine opts fs) then (.exitCode (-1), fs)
  else
    match getModelFormat opts.modelFormat with
    | .error e => (.uncaughtException e, fs)
    | .ok fmt =>
      match getOutputType opts.outputType with
      | .error e => (.uncaughtException e, fs)
      | .ok ty =>
        match getLayout opts.layout with
        | .error e => (.uncaughtException e, fs)
        | .ok layout =>
          let normParams := lookupNormParams fmt ty
          match loadResult with
          | .error _ => (.exitCode (-1), fs)
          | .ok rawImg =>
            let img := resize rawImg opts.newWidth opts.newHeight
            let data := prepareDispatch ty img normParams layout
            if !(canOpen fs opts.outputFile) then (.exitCode (-1), fs)
            else
              let fsOpened := fsSetFile fs opts.outputFile []
              let bytes := tensorBytes data
              match failAfter with
              | none => (.exitCode 0, fsSetFile fsOpened opts.outputFile bytes)
              | some k =>
                if bytes.length ≤ k then
                  (.exitCode 0, fsSetFile fsOpened opts.outputFile bytes)
                else
                  (.exitCode (-1), fsSetFile fsOpened opts.outputFile (bytes.take k))

/-- The command line of the write-failure scenario: a 1×1 qasymm8 tensor
written to `out/t.raw`. -/
def c3Opts : Options := ⟨"in.png", "NHWC", "out/t.raw", 0, 0, "caffe", "qasymm8"⟩

/-- The starting file system of the write-failure scenario: the input image
exists, the output directory exists, the output file does not. -/
def c3Fs : FileSystem := ⟨[("in.png", [0])], ["out"]⟩

/-- A 1×1 RGB image, every sample 100. -/
def c3Img : PixelBuffer := ⟨1, 1, 3, fun _ _ _ => 100⟩

/-! ## Indexing lemmas for the layout-flattened lists -/

theorem mul_add_lt_of_lt {i n j m : ℕ} (hi : i < n) (hj : j < m) :
    i * m + j < n * m := by
  calc i * m + j < (i + 1) * m := by nlinarith
    _ ≤ n * m := Nat.mul_le_mul_right m hi

theorem length_flatMap_range_const {α : Type} (f : ℕ → List α) (m n : ℕ)
    (hf : ∀ i, i < n → (f i).length = m) :
    ((List.range n).flatMap f).length = n * m := by
  induction n with
  | zero => simp
  | succ n ih =>
    rw [List.range_succ, List.flatMap_append]
    simp only [List.length_append, List.flatMap_cons, List.flatMap_nil,
      List.append_nil]
    rw [ih (fun i hi => hf i (Nat.lt_succ_of_lt hi)), hf n (Nat.lt_succ_self n)]
    ring

theorem getElem?_flatMap_range {α : Type} (f : ℕ → List α) {m n i j : ℕ}
    (hf : ∀ k, k < n → (f k).length = m) (hi : i < n) (hj : j < m) :
    ((List.range n).flatMap f)[i * m + j]? = (f i)[j]? := by
  induction n with
  | zero => omega
  | succ n ih =>
    rw [List.range_succ, List.flatMap_append]
    have hlen : ((List.range n).flatMap f).length = n * m :=
      length_flatMap_range_const f m n (fun k hk => hf k (Nat.lt_succ_of_lt hk))
    by_cases hcase : i < n
    · rw [List.getElem?_append_left (by rw [hlen]; exact mul_add_lt_of_lt hcase hj)]
      exact ih (fun k hk => hf k (Nat.lt_succ_of_lt hk)) hcase
    · have hieq : i = n := by omega
      subst hieq
      rw [List.getElem?_append_right (by rw [hlen]; exact Nat.le_add_right _ _)]
      rw [hlen]
      simp only [List.flatMap_cons, List.flatMap_nil, List.append_nil,
        Nat.add_sub_cancel_left]

theorem layoutList_nhwc_getElem {α : Type} (H W C : ℕ) (f : ℕ → ℕ → ℕ → α)
    {h w c : ℕ} (hh : h < H) (hw : w < W) (hc : c < C) :
    (layoutList .NHWC H W C f)[h * (W * C) + (w * C + c)]? = some (f h w c) := by
  unfold layoutList
  have hrow : ∀ k, k < H →
      ((List.range W).flatMap fun w =>
        (List.range C).map fun c => f k w c).length = W * C := by
    intro k _
    exact length_flatMap_range_const _ C W (fun i _ => by simp)
  rw [getElem?_flatMap_range _ hrow hh (mul_add_lt_of_lt hw hc)]
  rw [getElem?_flatMap_range _ (fun i _ => by simp) hw hc]
  rw [List.getElem?_map]
  simp [List.getElem?_range hc]

theorem layoutList_nchw_getElem {α : Type} (H W C : ℕ) (f : ℕ → ℕ → ℕ → α)
    {h w c : ℕ} (hh : h < H) (hw : w < W) (hc : c < C) :
    (layoutList .NCHW H W C f)[c * (H * W) + (h * W + w)]? = some (f h w c) := by
  unfold layoutList
  have hplane : ∀ k, k < C →
      ((List.range H).flatMap fun h =>
        (List.range W).map fun w => f h w k).length = H * W := by
    intro k _
    exact length_flatMap_range_const _ W H (fun i _ => by simp)
  rw [getElem?_flatMap_range _ hplane hc (mul_add_lt_of_lt hh hw)]
  rw [getElem?_flatMap_range _ (fun i _ => by simp) hh hw]
  rw [List.getElem?_map]
  simp [List.getElem?_range hw]

theorem layoutList_length {α : Type} (layout : DataLayout) (H W C : ℕ)
    (f : ℕ → ℕ → ℕ → α) :
    (layoutList layout H W C f).length = H * W * C := by
  cases layout with
  | NHWC =>
    unfold layoutList
    rw [length_flatMap_range_const _ (W * C) H]
    · ring
    · intro i _
      rw [length_flatMap_range_const _ C W (fun k _ => by simp)]
  | NCHW =>
    unfold layoutList
    rw [length_flatMap_range_const _ (H * W) C]
    · ring
    · intro i _
      rw [length_flatMap_range_const _ W H (fun k _ => by simp)]

/-! ## Claim theorems -/

/-- C7: For every pair (front-end, element-type) in
{Caffe, TensorFlow, TFLite} × {Float32, Signed32, QAsymmU8}, the
normalization lookup resolves to a record with exactly one scale and one
offset per channel (channel count 3). -/
theorem lookup_total_three_channels (fe : SupportedFrontend) (ty : DataType) :
    (lookupNormParams fe ty).scale.length = 3 ∧
    (lookupNormParams fe ty).offset.length = 3 := by
  cases fe <;> cases ty <;> exact ⟨rfl, rfl⟩

/-- C5: the orchestrator's `switch (outputType)` selects the concrete
element type from the configured OutputElementType — Float32 → float,
Signed32 → int, QAsymmU8 → uint8 — and exactly one type-specialized
instantiation runs per invocation (`imageDataContainers` receives exactly
one container, whose alternative matches the configured type). -/
theorem dispatch_selects_unique_instantiation (ty : DataType)
    (img : PixelBuffer) (p : NormalizationParameters) (layout : DataLayout) :
    (mainContainers ty img p layout).length = 1 ∧
    elemKind (prepareDispatch ty img p layout) = expectedElemKind ty := by
  cases ty <;> exact ⟨rfl, rfl⟩

/-- C6: a target dimension of zero preserves the corresponding source
dimension; the output's declared width and height equal the resolved
targets exactly and the channel count is unchanged; in particular
`targetWidth = 0`, `targetHeight = 0` leaves the dimensions equal to the
source dimensions. -/
theorem resize_resolves_zero_dims (img : PixelBuffer) (tw th : ℕ) :
    (resize img tw th).width = resolveDim tw img.width ∧
    (resize img tw th).height = resolveDim th img.height ∧
    (resize img tw th).channels = img.channels ∧
    resolveDim 0 img.width = img.width ∧
    resolveDim 0 img.height = img.height ∧
    (resize img 0 0).width = img.width ∧
    (resize img 0 0).height = img.height := by
  have hbase : ∀ a b, (resize img a b).width = resolveDim a img.width ∧
      (resize img a b).height = resolveDim b img.height ∧
      (resize img a b).channels = img.channels := by
    intro a b
    unfold resize
    by_cases hcond : resolveDim a img.width = img.width ∧
        resolveDim b img.height = img.height
    · rw [if_pos hcond]
      exact ⟨hcond.1.symm, hcond.2.symm, rfl⟩
    · rw [if_neg hcond]
      exact ⟨rfl, rfl, rfl⟩
  obtain ⟨hw, hh, hc⟩ := hbase tw th
  obtain ⟨hw0, hh0, _⟩ := hbase 0 0
  refine ⟨hw, hh, hc, rfl, rfl, ?_, ?_⟩
  · rw [hw0]; rfl
  · rw [hh0]; rfl

/-- C9: `Normalize` is deterministic — identical pixel buffer, identical
parameters and identical layout (and the same selected element type) give
the same tensor container, hence byte-identical serialized contents. -/
theorem normalize_deterministic (ty₁ ty₂ : DataType)
    (img₁ img₂ : PixelBuffer) (p₁ p₂ : NormalizationParameters)
    (l₁ l₂ : DataLayout) (hty : ty₁ = ty₂) (himg : img₁ = img₂)
    (hp : p₁ = p₂) (hl : l₁ = l₂) :
    prepareDispatch ty₁ img₁ p₁ l₁ = prepareDispatch ty₂ img₂ p₂ l₂ ∧
    tensorBytes (prepareDispatch ty₁ img₁ p₁ l₁) =
      tensorBytes (prepareDispatch ty₂ img₂ p₂ l₂) := by
  subst hty himg hp hl
  exact ⟨rfl, rfl⟩

/-- Witness for C9 at a concrete invocation. -/
theorem normalize_deterministic_witness :
    prepareDispatch .QAsymmU8 ⟨1, 1, 3, fun _ _ _ => 7⟩
        (lookupNormParams .TFLite .QAsymmU8) .NHWC =
      prepareDispatch .QAsymmU8 ⟨1, 1, 3, fun _ _ _ => 7⟩
        (lookupNormParams .TFLite .QAsymmU8) .NHWC ∧
    tensorBytes (prepareDispatch .QAsymmU8 ⟨1, 1, 3, fun _ _ _ => 7⟩
        (lookupNormParams .TFLite .QAsymmU8) .NHWC) =
      tensorBytes (prepareDispatch .QAsymmU8 ⟨1, 1, 3, fun _ _ _ => 7⟩
        (lookupNormParams .TFLite .QAsymmU8) .NHWC) :=
  normalize_deterministic _ _ _ _ _ _ _ _ rfl rfl rfl rfl

/-- C1: for every pixel buffer and normalization parameters, when the
output element type is QAsymmU8 the element stored at each position (under
either layout's index formula) is the scaled value rounded to nearest
integer and clamped to [0, 255]: a rounded value below 0 serializes as 0, a
rounded value above 255 serializes as 255, and an in-range rounded value
serializes as itself (a `uint8_t` element's serialized byte is the element
itself). -/
theorem quantU8_output_rounds_and_clamps (img : PixelBuffer)
    (p : NormalizationParameters) {h w c : ℕ}
    (hh : h < img.height) (hw : w < img.width) (hc : c < 3) :
    (normalizeU8 img p .NHWC)[h * img.width * 3 + w * 3 + c]? =
      some (quantU8Value img p h w c) ∧
    (normalizeU8 img p .NCHW)[c * img.height * img.width + h * img.width + w]? =
      some (quantU8Value img p h w c) ∧
    quantU8Value img p h w c ≤ 255 ∧
    (roundedValue img p h w c < 0 → quantU8Value img p h w c = 0) ∧
    (255 < roundedValue img p h w c → quantU8Value img p h w c = 255) ∧
    (0 ≤ roundedValue img p h w c → roundedValue img p h w c ≤ 255 →
      (quantU8Value img p h w c : ℤ) = roundedValue img p h w c) := by
  refine ⟨?_, ?_, ?_, ?_, ?_, ?_⟩
  · have hidx : h * img.width * 3 + w * 3 + c =
        h * (img.width * 3) + (w * 3 + c) := by ring
    rw [hidx]
    exact layoutList_nhwc_getElem img.height img.width 3 _ hh hw hc
  · have hidx : c * img.height * img.width + h * img.width + w =
        c * (img.height * img.width) + (h * img.width + w) := by ring
    rw [hidx]
    exact layoutList_nchw_getElem img.height img.width 3 _ hh hw hc
  · unfold quantU8Value; omega
  · intro hlt; unfold quantU8Value; omega
  · intro hgt; unfold quantU8Value; omega
  · intro h0 h255; unfold quantU8Value; omega

/-- Witness for C1 at a concrete buffer, parameter record and position. -/
theorem quantU8_output_rounds_and_clamps_witness :
    ((1 : ℕ) < 2 ∧ (1 : ℕ) < 2 ∧ (2 : ℕ) < 3) ∧
    ((normalizeU8 ⟨2, 2, 3, fun h w c => h * 100 + w * 10 + c⟩
        (lookupNormParams .TensorFlow .QAsymmU8) .NHWC)[1 * 2 * 3 + 1 * 3 + 2]? =
      some (quantU8Value ⟨2, 2, 3, fun h w c => h * 100 + w * 10 + c⟩
        (lookupNormParams .TensorFlow .QAsymmU8) 1 1 2) ∧
    (normalizeU8 ⟨2, 2, 3, fun h w c => h * 100 + w * 10 + c⟩
        (lookupNormParams .TensorFlow .QAsymmU8) .NCHW)[2 * 2 * 2 + 1 * 2 + 1]? =
      some (quantU8Value ⟨2, 2, 3, fun h w c => h * 100 + w * 10 + c⟩
        (lookupNormParams .TensorFlow .QAsymmU8) 1 1 2) ∧
    quantU8Value ⟨2, 2, 3, fun h w c => h * 100 + w * 10 + c⟩
        (lookupNormParams .TensorFlow .QAsymmU8) 1 1 2 ≤ 255 ∧
    (roundedValue ⟨2, 2, 3, fun h w c => h * 100 + w * 10 + c⟩
        (lookupNormParams .TensorFlow .QAsymmU8) 1 1 2 < 0 →
      quantU8Value ⟨2, 2, 3, fun h w c => h * 100 + w * 10 + c⟩
        (lookupNormParams .TensorFlow .QAsymmU8) 1 1 2 = 0) ∧
    (255 < roundedValue ⟨2, 2, 3, fun h w c => h * 100 + w * 10 + c⟩
        (lookupNormParams .TensorFlow .QAsymmU8) 1 1 2 →
      quantU8Value ⟨2, 2, 3, fun h w c => h * 100 + w * 10 + c⟩
        (lookupNormParams .TensorFlow .QAsymmU8) 1 1 2 = 255) ∧
    (0 ≤ roundedValue ⟨2, 2, 3, fun h w c => h * 100 + w * 10 + c⟩
        (lookupNormParams .TensorFlow .QAsymmU8) 1 1 2 →
      roundedValue ⟨2, 2, 3, fun h w c => h * 100 + w * 10 + c⟩
        (lookupNormParams .TensorFlow .QAsymmU8) 1 1 2 ≤ 255 →
      (quantU8Value ⟨2, 2, 3, fun h w c => h * 100 + w * 10 + c⟩
        (lookupNormParams .TensorFlow .QAsymmU8) 1 1 2 : ℤ) =
        roundedValue ⟨2, 2, 3, fun h w c => h * 100 + w * 10 + c⟩
        (lookupNormParams .TensorFlow .QAsymmU8) 1 1 2)) :=
  ⟨by decide,
   quantU8_output_rounds_and_clamps
     ⟨2, 2, 3, fun h w c => h * 100 + w * 10 + c⟩
     (lookupNormParams .TensorFlow .QAsymmU8)
     (by decide) (by decide) (by decide)⟩

/-- C2: for a fixed pixel buffer and fixed normalization parameters, the
NHWC and NCHW outputs of `Normalize` hold bit-identical element values and
differ only in storage position: the element the NCHW output stores at the
NCHW flat index `c·H·W + h·W + w` is exactly the element the NHWC output
stores at the NHWC flat index `h·W·C + w·C + c`, for every element type,
and the two outputs have equal length. -/
theorem layout_reorder_reproduces_nchw (img : PixelBuffer)
    (p : NormalizationParameters) {h w c : ℕ}
    (hh : h < img.height) (hw : w < img.width) (hc : c < 3) :
    (normalizeFloat img p .NCHW)[c * img.height * img.width + h * img.width + w]? =
      (normalizeFloat img p .NHWC)[h * img.width * 3 + w * 3 + c]? ∧
    (normalizeInt img p .NCHW)[c * img.height * img.width + h * img.width + w]? =
      (normalizeInt img p .NHWC)[h * img.width * 3 + w * 3 + c]? ∧
    (normalizeU8 img p .NCHW)[c * img.height * img.width + h * img.width + w]? =
      (normalizeU8 img p .NHWC)[h * img.width * 3 + w * 3 + c]? ∧
    (normalizeFloat img p .NCHW).length = (normalizeFloat img p .NHWC).length ∧
    (normalizeInt img p .NCHW).length = (normalizeInt img p .NHWC).length ∧
    (normalizeU8 img p .NCHW).length = (normalizeU8 img p .NHWC).length := by
  have hidxC : ∀ n : ℕ, c * img.height * img.width + h * img.width + w =
      c * (img.height * img.width) + (h * img.width + w) := fun _ => by ring
  have hidxH : h * img.width * 3 + w * 3 + c =
      h * (img.width * 3) + (w * 3 + c) := by ring
  refine ⟨?_, ?_, ?_, ?_, ?_, ?_⟩
  · rw [hidxC 0, hidxH]
    unfold normalizeFloat
    rw [layoutList_nchw_getElem img.height img.width 3 _ hh hw hc,
      layoutList_nhwc_getElem img.height img.width 3 _ hh hw hc]
  · rw [hidxC 0, hidxH]
    unfold normalizeInt
    rw [layoutList_nchw_getElem img.height img.width 3 _ hh hw hc,
      layoutList_nhwc_getElem img.height img.width 3 _ hh hw hc]
  · rw [hidxC 0, hidxH]
    unfold normalizeU8
    rw [layoutList_nchw_getElem img.height img.width 3 _ hh hw hc,
      layoutList_nhwc_getElem img.height img.width 3 _ hh hw hc]
  · unfold normalizeFloat; rw [layoutList_length, layoutList_length]
  · unfold normalizeInt; rw [layoutList_length, layoutList_length]
  · unfold normalizeU8; rw [layoutList_length, layoutList_length]

/-- Witness for C2: the 2×2×3 buffer of §8 of the spec, at position
h = 1, w = 0, c = 2. -/
theorem layout_reorder_reproduces_nchw_witness :
    ((1 : ℕ) < 2 ∧ (0 : ℕ) < 2 ∧ (2 : ℕ) < 3) ∧
    ((normalizeFloat ⟨2, 2, 3, fun h w c => h * 6 + w * 3 + c⟩
        (lookupNormParams .TensorFlow .Float32) .NCHW)[2 * 2 * 2 + 1 * 2 + 0]? =
      (normalizeFloat ⟨2, 2, 3, fun h w c => h * 6 + w * 3 + c⟩
        (lookupNormParams .TensorFlow .Float32) .NHWC)[1 * 2 * 3 + 0 * 3 + 2]? ∧
    (normalizeInt ⟨2, 2, 3, fun h w c => h * 6 + w * 3 + c⟩
        (lookupNormParams .TensorFlow .Float32) .NCHW)[2 * 2 * 2 + 1 * 2 + 0]? =
      (normalizeInt ⟨2, 2, 3, fun h w c => h * 6 + w * 3 + c⟩
        (lookupNormParams .TensorFlow .Float32) .NHWC)[1 * 2 * 3 + 0 * 3 + 2]? ∧
    (normalizeU8 ⟨2, 2, 3, fun h w c => h * 6 + w * 3 + c⟩
        (lookupNormParams .TensorFlow .Float32) .NCHW)[2 * 2 * 2 + 1 * 2 + 0]? =
      (normalizeU8 ⟨2, 2, 3, fun h w c => h * 6 + w * 3 + c⟩
        (lookupNormParams .TensorFlow .Float32) .NHWC)[1 * 2 * 3 + 0 * 3 + 2]? ∧
    (normalizeFloat ⟨2, 2, 3, fun h w c => h * 6 + w * 3 + c⟩
        (lookupNormParams .TensorFlow .Float32) .NCHW).length =
      (normalizeFloat ⟨2, 2, 3, fun h w c => h * 6 + w * 3 + c⟩
        (lookupNormParams .TensorFlow .Float32) .NHWC).length ∧
    (normalizeInt ⟨2, 2, 3, fun h w c => h * 6 + w * 3 + c⟩
        (lookupNormParams .TensorFlow .Float32) .NCHW).length =
      (normalizeInt ⟨2, 2, 3, fun h w c => h * 6 + w * 3 + c⟩
        (lookupNormParams .TensorFlow .Float32) .NHWC).length ∧
    (normalizeU8 ⟨2, 2, 3, fun h w c => h * 6 + w * 3 + c⟩
        (lookupNormParams .TensorFlow .Float32) .NCHW).length =
      (normalizeU8 ⟨2, 2, 3, fun h w c => h * 6 + w * 3 + c⟩
        (lookupNormParams .TensorFlow .Float32) .NHWC).length) :=
  ⟨by decide,
   layout_reorder_reproduces_nchw
     ⟨2, 2, 3, fun h w c => h * 6 + w * 3 + c⟩
     (lookupNormParams .TensorFlow .Float32)
     (by decide) (by decide) (by decide)⟩

/-! ## Helper lemmas about the validation chain -/

theorem processCommandLine_validations {opts : Options} {fs : FileSystem}
    (hp : processCommandLine opts fs = true) :
    validateInputFile fs opts.inputFile = true ∧
    validateLayout opts.layout = true ∧
    validateOutputFile fs opts.outputFile = true := by
  unfold processCommandLine at hp
  split_ifs at hp with h1 h2 h3
  exact ⟨by simpa using h1, by simpa using h2, by simpa using h3⟩

theorem validateLayout_mem {layout : String}
    (hv : validateLayout layout = true) :
    layout = "NHWC" ∨ layout = "NCHW" := by
  unfold validateLayout at hv
  split_ifs at hv with h1 h2
  have hmem : layout ∈ supportedLayouts := by
    simpa using h2
  simpa [supportedLayouts] using hmem

theorem validateOutputFile_false_of_exists {fs : FileSystem} {n : String}
    (hex : fsExists fs n = true) : validateOutputFile fs n = false := by
  unfold validateOutputFile
  split_ifs <;> rfl

theorem processCommandLine_false_of_bad_output {opts : Options}
    {fs : FileSystem} (hv : validateOutputFile fs opts.outputFile = false) :
    processCommandLine opts fs = false := by
  unfold processCommandLine
  split_ifs with h1 h2 h3 <;> first | rfl | exact absurd hv (by simp_all)

/-- C10: whenever `ProcessCommandLine` returns true the stored layout
string is exactly "NHWC" or "NCHW", so `GetLayout`'s exception branch is
unreachable, and `GetLayout` returns NHWC exactly when the string is
"NHWC" and NCHW exactly when it is "NCHW". -/
theorem validated_layout_getlayout_total (opts : Options) (fs : FileSystem)
    (hp : processCommandLine opts fs = true) :
    (opts.layout = "NHWC" ∨ opts.layout = "NCHW") ∧
    (getLayout opts.layout = Except.ok DataLayout.NHWC ↔
      opts.layout = "NHWC") ∧
    (getLayout opts.layout = Except.ok DataLayout.NCHW ↔
      opts.layout = "NCHW") := by
  have hmem := validateLayout_mem (processCommandLine_validations hp).2.1
  refine ⟨hmem, ?_, ?_⟩ <;> rcases hmem with hl | hl <;> rw [hl] <;>
    simp [getLayout]

/-- Witness for C10: a command line that validates, with layout "NCHW". -/
theorem validated_layout_getlayout_total_witness :
    processCommandLine
        ⟨"in.png", "NCHW", "out/t.raw", 0, 0, "caffe", "float"⟩
        ⟨[("in.png", [0])], ["out"]⟩ = true ∧
    ((("NCHW" : String) = "NHWC" ∨ ("NCHW" : String) = "NCHW") ∧
    (getLayout "NCHW" = Except.ok DataLayout.NHWC ↔
      ("NCHW" : String) = "NHWC") ∧
    (getLayout "NCHW" = Except.ok DataLayout.NCHW ↔
      ("NCHW" : String) = "NCHW")) :=
  ⟨by decide,
   validated_layout_getlayout_total
     ⟨"in.png", "NCHW", "out/t.raw", 0, 0, "caffe", "float"⟩
     ⟨[("in.png", [0])], ["out"]⟩ (by decide)⟩

/-- C4: invoking the pipeline with an output path that already exists fails
(exit code −1) before any write, leaving the file system — in particular
the pre-existing file's contents — unmodified. -/
theorem existing_output_fails_before_write (opts : Options)
    (fs : FileSystem) (loadResult : Except String PixelBuffer)
    (failAfter : Option ℕ) (hex : fsExists fs opts.outputFile = true) :
    mainRun opts fs loadResult failAfter = (MainResult.exitCode (-1), fs) := by
  have hfalse := processCommandLine_false_of_bad_output
    (validateOutputFile_false_of_exists hex)
  unfold mainRun
  rw [hfalse]
  rfl

/-- Witness for C4: the output path holds the bytes `[7]` beforehand and
still holds them afterwards. -/
theorem existing_output_fails_before_write_witness :
    fsExists ⟨[("in.png", [0]), ("out/t.raw", [7])], ["out"]⟩ "out/t.raw" =
      true ∧
    mainRun ⟨"in.png", "NHWC", "out/t.raw", 0, 0, "caffe", "float"⟩
        ⟨[("in.png", [0]), ("out/t.raw", [7])], ["out"]⟩
        (Except.error "load") none =
      (MainResult.exitCode (-1),
        ⟨[("in.png", [0]), ("out/t.raw", [7])], ["out"]⟩) :=
  ⟨by decide,
   existing_output_fails_before_write
     ⟨"in.png", "NHWC", "out/t.raw", 0, 0, "caffe", "float"⟩
     ⟨[("in.png", [0]), ("out/t.raw", [7])], ["out"]⟩
     (Except.error "load") none (by decide)⟩

/-- C8: when a validated command line carries a model-format or output-type
string outside the declared enumerations, the pipeline terminates with the
uncaught `armnn::Exception` thrown by the string→enum getter — a fatal
configuration error raised before the normalization lookup or the type
dispatch runs — and the file system is untouched (no default code path
proceeds). -/
theorem unknown_enum_fails_fatally (opts : Options) (fs : FileSystem)
    (loadResult : Except String PixelBuffer) (failAfter : Option ℕ)
    (hp : processCommandLine opts fs = true)
    (hbad : ¬(opts.modelFormat ∈ ["caffe", "tensorflow", "tflite"] ∧
              opts.outputType ∈ ["float", "int", "qasymm8"])) :
    ∃ msg, mainRun opts fs loadResult failAfter =
      (MainResult.uncaughtException msg, fs) := by
  by_cases hfmt : opts.modelFormat ∈ ["caffe", "tensorflow", "tflite"]
  · have hty : opts.outputType ∉ ["float", "int", "qasymm8"] :=
      fun hmem => hbad ⟨hfmt, hmem⟩
    simp only [List.mem_cons, List.not_mem_nil, or_false, not_or] at hty
    obtain ⟨ht1, ht2, ht3⟩ := hty
    have hgty : getOutputType opts.outputType =
        Except.error ("Unsupported input type" ++ opts.outputType) := by
      unfold getOutputType
      rw [if_neg ht1, if_neg ht2, if_neg ht3]
    simp only [List.mem_cons, List.not_mem_nil, or_false] at hfmt
    refine ⟨"Unsupported input type" ++ opts.outputType, ?_⟩
    rcases hfmt with hf | hf | hf <;>
    · have hgfmt : ∃ fe, getModelFormat opts.modelFormat = Except.ok fe := by
        unfold getModelFormat
        rw [hf]
        simp
      obtain ⟨fe, hgfmt⟩ := hgfmt
      simp [mainRun, hp, hgfmt, hgty]
  · simp only [List.mem_cons, List.not_mem_nil, or_false, not_or] at hfmt
    obtain ⟨hf1, hf2, hf3⟩ := hfmt
    have hgfmt : getModelFormat opts.modelFormat =
        Except.error ("Unsupported model format" ++ opts.modelFormat) := by
      unfold getModelFormat
      rw [if_neg hf1, if_neg hf2, if_neg hf3]
    exact ⟨"Unsupported model format" ++ opts.modelFormat,
      by simp [mainRun, hp, hgfmt]⟩

/-- Witness for C8: a validated command line whose model-format string is
"onnx", outside the declared enumeration. -/
theorem unknown_enum_fails_fatally_witness :
    processCommandLine
        ⟨"in.png", "NHWC", "out/t.raw", 0, 0, "onnx", "float"⟩
        ⟨[("in.png", [0])], ["out"]⟩ = true ∧
    ¬(("onnx" : String) ∈ ["caffe", "tensorflow", "tflite"] ∧
      ("float" : String) ∈ ["float", "int", "qasymm8"]) ∧
    ∃ msg, mainRun ⟨"in.png", "NHWC", "out/t.raw", 0, 0, "onnx", "float"⟩
        ⟨[("in.png", [0])], ["out"]⟩ (Except.error "load") none =
      (MainResult.uncaughtException msg, ⟨[("in.png", [0])], ["out"]⟩) :=
  ⟨by decide, by decide,
   unknown_enum_fails_fatally
     ⟨"in.png", "NHWC", "out/t.raw", 0, 0, "onnx", "float"⟩
     ⟨[("in.png", [0])], ["out"]⟩ (Except.error "load") none
     (by decide) (by decide)⟩

/-! ## The mid-stream write-failure scenario (C3) -/

theorem c3_quant_values :
    quantU8Value c3Img (lookupNormParams .Caffe .QAsymmU8) 0 0 0 = 100 ∧
    quantU8Value c3Img (lookupNormParams .Caffe .QAsymmU8) 0 0 1 = 100 ∧
    quantU8Value c3Img (lookupNormParams .Caffe .QAsymmU8) 0 0 2 = 100 := by
  refine ⟨?_, ?_, ?_⟩ <;>
    norm_num [quantU8Value, roundedValue, scaledValue, lookupNormParams,
      c3Img, List.getD, round_eq] <;> rfl

theorem c3_tensor_data :
    prepareDispatch DataType.QAsymmU8 (resize c3Img 0 0)
      (lookupNormParams .Caffe .QAsymmU8) DataLayout.NHWC =
    TensorData.u8s [100, 100, 100] := by
  have hresize : resize c3Img 0 0 = c3Img := by
    unfold resize resolveDim c3Img
    simp
  obtain ⟨h0, h1, h2⟩ := c3_quant_values
  rw [hresize]
  unfold prepareDispatch normalizeU8 layoutList
  rw [show c3Img.height = 1 from rfl, show c3Img.width = 1 from rfl]
  rw [show List.range 1 = [0] from rfl, show List.range 3 = [0, 1, 2] from rfl]
  simp only [List.flatMap_cons, List.flatMap_nil, List.map_cons, List.map_nil,
    List.append_nil]
  rw [h0, h1, h2]

/-- C3, settled against the code: when the output stream fails after one
byte of the three-byte tensor, `main` logs and returns −1 but leaves the
partially written output file in place — the file still exists and its
content is the non-empty one-byte prefix, neither deleted nor truncated to
empty. -/
theorem midstream_write_failure_leaves_partial_file :
    (mainRun c3Opts c3Fs (Except.ok c3Img) (some 1)).1 =
      MainResult.exitCode (-1) ∧
    fsFileExists (mainRun c3Opts c3Fs (Except.ok c3Img) (some 1)).2
      "out/t.raw" = true ∧
    fsGetFile (mainRun c3Opts c3Fs (Except.ok c3Img) (some 1)).2
      "out/t.raw" = some [100] ∧
    ([100] : List ℕ) ≠ ([] : List ℕ) := by
  have hpcl : processCommandLine c3Opts c3Fs = true := by decide
  have hfmt : getModelFormat c3Opts.modelFormat =
      Except.ok SupportedFrontend.Caffe := rfl
  have hty : getOutputType c3Opts.outputType =
      Except.ok DataType.QAsymmU8 := rfl
  have hlay : getLayout c3Opts.layout = Except.ok DataLayout.NHWC := rfl
  have heq : mainRun c3Opts c3Fs (Except.ok c3Img) (some 1) =
      (MainResult.exitCode (-1),
        fsSetFile (fsSetFile c3Fs "out/t.raw" []) "out/t.raw" [100]) := by
    unfold mainRun
    simp only [hpcl, hfmt, hty, hlay, Bool.not_true]
    simp only [show c3Opts.newWidth = 0 from rfl,
      show c3Opts.newHeight = 0 from rfl]
    rw [c3_tensor_data]
    rfl
  rw [heq]
  refine ⟨rfl, by decide, by decide, by decide⟩

end ImageTensorGen
